import Mathlib

/-!
Verification of the GuideAntsChat streaming conversation controller.

This file gives a shallow embedding of the controller, state, turn-grouping
and stream-event-dispatch subsystem of the repository:

- `src/client/src/chat/GuideantsChatState.ts`  (the mutable state record)
- `src/client/src/chat/GuideantsChatController.ts`
  (`handleSseEvent`, `handleRegisteredTools`, `performSend`,
   `submitExternalToolResults`, `beginResumeStream`, `goToTurn`,
   `loadConversation`, `ensureConversation`, `normalizeAttachments`)
- `src/client/src/chat/GuideantsChatView.ts` (`groupMessagesIntoTurns`)
- `src/client/src/GuideantsApi.ts` / `GuideantsChatService.ts`
  (the line-oriented event-stream decoder)

Modelling conventions.  JavaScript strings are Lean `String`; the methods
`startsWith` and `slice` are modelled over `String.data`.  Timestamps
produced by `Date.now` become an explicit `now : Nat` clock argument.
Network calls and the external tool handlers are reified: each operation
takes the outcome of every asynchronous collaborator as data (a `NetEnv`),
DOM event dispatches become an explicit list of `Emit` values, and the
fire-and-forget invocation of `handleRegisteredTools` is returned as a
`spawned` batch of tool calls rather than executed inline.  View-layer
calls (render, scroll) have no state effect and are dropped.
-/

namespace GuideAnts

/-- JS `s.startsWith(p)`, modelled over the character data of the string. -/
def strStartsWith (s p : String) : Bool := p.data.isPrefixOf s.data

/-- JS `s.slice(n)` for a non-negative index, modelled over character data. -/
def strDrop (s : String) (n : Nat) : String := String.mk (s.data.drop n)

/-- Message roles, from `ConversationRole` in the api type declarations. -/
inductive Role
  | User
  | Assistant
  | System
  | Tool
deriving DecidableEq, Repr

/-- A published attachment reference, from `PublishedAttachment`. -/
structure PublishedAttachment where
  notebookFileId : String
  uploadType : String
  fileName : Option String := none
deriving DecidableEq, Repr

/-- A conversation message, from the `Message` shape used by the controller. -/
structure Message where
  id : String
  role : Role
  content : String
  created : Nat
  isEdited : Bool
  attachments : List PublishedAttachment := []
deriving DecidableEq, Repr

/-- One entry of `state.pendingAttachments`: an uploaded file kept in the
pending queue together with its published reference. -/
structure PendingAttachment where
  fileName : String
  published : PublishedAttachment
deriving DecidableEq, Repr

/-- The display mode attribute: `full` or `last-turn`. -/
inductive DisplayMode
  | full
  | lastTurn
deriving DecidableEq, Repr

/-- The slice of `PublishedGuideConfig` the send flow reads. -/
structure GuideConfig where
  maxTurns : Option Nat := none
  maxUserMessageLength : Option Nat := none
deriving DecidableEq, Repr

/-- The controller state, from `GuideantsChatState.ts` (fields that the
verified operations read or write). -/
structure ChatState where
  pubId : Option String := none
  conversationId : Option String := none
  projectId : Option String := none
  notebookId : Option String := none
  guideId : Option String := none
  publishedGuideConfig : Option GuideConfig := none
  conversationContext : Option String := none
  messages : List Message := []
  authError : Option (String × String) := none
  inlineError : Option String := none
  isStreaming : Bool := false
  streamingAssistantMessageId : Option String := none
  sanitizedMessageContent : Option String := none
  displayMode : DisplayMode := .full
  activeTurnIndex : Option Int := none
  collapsible : Bool := false
  isCollapsed : Bool := false
  commandMode : Bool := false
  pendingAttachments : List PendingAttachment := []
deriving DecidableEq, Repr

/-- A tool call as delivered by an `external_tool_call` event.  `fname`
models `call.function?.name` (absent `function` or absent `name` both
collapse to `none`); `arguments` models `call.function?.arguments` with
the empty string for an absent value. -/
structure ToolCall where
  id : String
  fname : Option String := none
  arguments : String := ""
deriving DecidableEq, Repr

/-- A tool result record as submitted back to the conversation service. -/
structure ToolResult where
  toolCallId : String
  name : String
  content : String
deriving DecidableEq, Repr

/-- The behaviour of one registered tool handler on one call: it resolves
with a result or `null`, or it throws. -/
inductive HandlerOutcome
  | ok (result : Option ToolResult)
  | threw (message : String)

/-- The tool registry: `Map<string, handler>` as a partial function. -/
def Registry := String → Option (ToolCall → HandlerOutcome)

/-- The payload of a decoded stream event (`evt.data`), restricted to the
fields `handleSseEvent` reads.  An absent field is `none`. -/
structure SseData where
  contentDelta : Option String := none
  content : Option String := none
  message : Option String := none
  toolCalls : Option (List ToolCall) := none
deriving DecidableEq, Repr

/-- A decoded stream event: `evt.type` plus an optional data payload. -/
structure SseEvent where
  type : String
  data : Option SseData := none
deriving DecidableEq, Repr

/-- Outward notifications dispatched on the host element (`wf-*` custom
events) plus the optional stream-event callback invocation. -/
inductive Emit
  | streamStart
  | complete
  | error (message : String)
  | streamEvent (eventType : String)
  | expanded
  | authError (code : String) (message : String) (requiresAuth : Bool)
  | turnNavigation (turnIndex : Int) (totalTurns : Nat)
  | toolCallCallback
deriving DecidableEq, Repr

/-- A thrown JS error: either a generic `Error` or an `AuthenticationError`. -/
inductive JsErr
  | generic (message : String)
  | auth (code : String) (message : String) (requiresAuth : Bool)
deriving DecidableEq, Repr

/-- `err.message`. -/
def JsErr.message : JsErr → String
  | .generic m => m
  | .auth _ m _ => m

/-- Result of one controller step: the new state, the notifications
dispatched (in order), and the tool-call batches handed fire-and-forget to
`handleRegisteredTools`. -/
structure OpResult where
  state : ChatState
  emits : List Emit
  spawned : List (List ToolCall)
deriving Repr

/-- `showError` / `setInlineError`: records the inline error banner text. -/
def showErrorState (message : String) (s : ChatState) : ChatState :=
  { s with inlineError := some message }

/-- The optimistic empty assistant message the controller mints, with id
`temp-assistant-` plus the current clock value. -/
def freshAssistant (now : Nat) : Message :=
  { id := "temp-assistant-" ++ toString now, role := .Assistant, content := ""
    created := now, isEdited := false }

/-- Updates the content of the first message with the given id (the
`messages.find(m => m.id === id)` followed by a mutation in the source);
leaves the list unchanged when no message has the id. -/
def setContentOfFirst (i : String) (f : String → String) : List Message → List Message
  | [] => []
  | m :: ms =>
    if m.id = i then { m with content := f m.content } :: ms
    else m :: setContentOfFirst i f ms

/-- `evt.data?.contentDelta ||` the empty string. -/
def getContentDelta (evt : SseEvent) : String :=
  ((evt.data.bind (·.contentDelta)).getD "")

/-- `evt.data?.content ||` the empty string. -/
def getContent (evt : SseEvent) : String :=
  ((evt.data.bind (·.content)).getD "")

/-- `evt.data?.message ||` the fallback text "stream error". -/
def getErrMessage (evt : SseEvent) : String :=
  let m := (evt.data.bind (·.message)).getD ""
  if m = "" then "stream error" else m

/-- `evt.data?.toolCalls || []`. -/
def getToolCalls (evt : SseEvent) : List ToolCall :=
  (evt.data.bind (·.toolCalls)).getD []

/-- The `token` case of `handleSseEvent`: create an empty streaming
assistant message if none is active (implicit start, sets `isStreaming`),
then append the delta to the active streaming message when non-empty. -/
def handleToken (now : Nat) (delta : String) (s : ChatState) : ChatState :=
  let s :=
    if s.streamingAssistantMessageId.isNone then
      { s with isStreaming := true
               messages := s.messages ++ [freshAssistant now]
               streamingAssistantMessageId := some (freshAssistant now).id }
    else s
  if delta ≠ "" then
    match s.streamingAssistantMessageId with
    | some i => { s with messages := setContentOfFirst i (· ++ delta) s.messages }
    | none => s
  else s

/-- The `assistant_message` case: create a streaming message if absent
(sets `isStreaming`), then replace its content wholesale when non-empty. -/
def handleAssistantMessage (now : Nat) (content : String) (s : ChatState) : ChatState :=
  let s :=
    if s.streamingAssistantMessageId.isNone then
      { s with isStreaming := true
               messages := s.messages ++ [freshAssistant now]
               streamingAssistantMessageId := some (freshAssistant now).id }
    else s
  if content ≠ "" then
    match s.streamingAssistantMessageId with
    | some i => { s with messages := setContentOfFirst i (fun _ => content) s.messages }
    | none => s
  else s

/-- The `message` case: cache the sanitized content, create a streaming
message if absent (without touching `isStreaming`), and replace the
content of the streaming message. -/
def handleMessageEvent (now : Nat) (content : String) (s : ChatState) : ChatState :=
  if content ≠ "" then
    let s := { s with sanitizedMessageContent := some content }
    let s :=
      if s.streamingAssistantMessageId.isNone then
        { s with messages := s.messages ++ [freshAssistant now]
                 streamingAssistantMessageId := some (freshAssistant now).id }
      else s
    match s.streamingAssistantMessageId with
    | some i => { s with messages := setContentOfFirst i (fun _ => content) s.messages }
    | none => s
  else s

/-- The tool names among the calls that have a truthy name not present in
the registry, in call order (the `missingHandlers` loop of the source). -/
def missingHandlers (hasTool : String → Bool) (toolCalls : List ToolCall) : List String :=
  toolCalls.filterMap fun c =>
    match c.fname with
    | some n => if n ≠ "" ∧ ¬ hasTool n then some n else none
    | none => none

/-- The error text built when some requested tool has no handler. -/
def missingHandlersMessage (missing : List String) : String :=
  "No handler registered for tool(s): " ++ String.intercalate ", " missing

/-- The `external_tool_call` case of `handleSseEvent`: suspend streaming,
abort with an error naming the missing tools when any requested tool has
no registered handler (all-or-nothing), else spawn the registered-tool
execution fire-and-forget and invoke the stream-event callback. -/
def handleExternalToolCall (hasTool : String → Bool) (hasCb : Bool)
    (evt : SseEvent) (s : ChatState) : OpResult :=
  let s := { s with isStreaming := false }
  let toolCalls := getToolCalls evt
  if toolCalls = [] then { state := s, emits := [], spawned := [] }
  else
    let missing := missingHandlers hasTool toolCalls
    if missing ≠ [] then
      let msg := missingHandlersMessage missing
      { state := showErrorState msg s, emits := [Emit.error msg], spawned := [] }
    else
      { state := s
        emits := if hasCb then [Emit.toolCallCallback] else []
        spawned := [toolCalls] }

/-- `handleSseEvent` from `GuideantsChatController.ts`.  `hasTool` is
`toolRegistry.has`, `hasCb` records whether a stream-event callback is
registered, `now` is the clock.  Every event except `external_tool_call`
is re-emitted outward as a `wf-` notification after the internal state
mutation. -/
def handleSseEvent (hasTool : String → Bool) (hasCb : Bool) (now : Nat)
    (evt : SseEvent) (s : ChatState) : OpResult :=
  if evt.type = "token" then
    { state := handleToken now (getContentDelta evt) s
      emits := [Emit.streamEvent evt.type], spawned := [] }
  else if evt.type = "assistant_message" then
    { state := handleAssistantMessage now (getContent evt) s
      emits := [Emit.streamEvent evt.type], spawned := [] }
  else if evt.type = "external_tool_call" then
    handleExternalToolCall hasTool hasCb evt s
  else if evt.type = "message" then
    { state := handleMessageEvent now (getContent evt) s
      emits := [Emit.streamEvent evt.type], spawned := [] }
  else if evt.type = "error" then
    { state := showErrorState (getErrMessage evt) s
      emits := [Emit.streamEvent evt.type], spawned := [] }
  else if evt.type = "complete" ∨ evt.type = "cancelled" then
    { state := { s with isStreaming := false, streamingAssistantMessageId := none
                        sanitizedMessageContent := none }
      emits := [Emit.streamEvent evt.type], spawned := [] }
  else
    { state := s, emits := [Emit.streamEvent evt.type], spawned := [] }

/-- Folds `handleSseEvent` over a list of arriving events (FIFO), advancing
the clock by one per event; concatenates emissions and spawned batches in
arrival order. -/
def runEvents (hasTool : String → Bool) (hasCb : Bool) :
    List SseEvent → Nat → ChatState → ChatState × List Emit × List (List ToolCall)
  | [], _, s => (s, [], [])
  | e :: es, now, s =>
    let r := handleSseEvent hasTool hasCb now e s
    let (s', ems, sp) := runEvents hasTool hasCb es (now + 1) r.state
    (s', r.emits ++ ems, r.spawned ++ sp)

/-- Escapes a string for inclusion in a JSON string literal (the part of
`JSON.stringify` exercised by the synthesized error payloads). -/
def escapeJsonString (m : String) : String :=
  String.mk (m.data.flatMap fun c => if c = '\\' ∨ c = '"' then ['\\', c] else [c])

/-- `JSON.stringify` of an object with a single `error` field. -/
def jsonErrorContent (m : String) : String :=
  "\x7b\"error\":\"" ++ escapeJsonString m ++ "\"\x7d"

/-- The normalized call object passed to a handler:
`id` plus `function.name` and `function.arguments ||` an empty object. -/
def normalizeCall (c : ToolCall) (n : String) : ToolCall :=
  { id := c.id, fname := some n
    arguments := if c.arguments = "" then "\x7b\x7d" else c.arguments }

/-- The collection loop of `handleRegisteredTools`: skip calls without a
truthy name or without a registered handler; a handler that resolves with
a result contributes it, one that resolves `null` contributes nothing, and
one that throws contributes a synthesized error result for that call. -/
def collectToolResults (reg : Registry) : List ToolCall → List ToolResult
  | [] => []
  | c :: cs =>
    match c.fname with
    | none => collectToolResults reg cs
    | some n =>
      if n = "" then collectToolResults reg cs
      else
        match reg n with
        | none => collectToolResults reg cs
        | some handler =>
          match handler (normalizeCall c n) with
          | .ok (some r) => r :: collectToolResults reg cs
          | .ok none => collectToolResults reg cs
          | .threw m =>
            { toolCallId := c.id, name := n, content := jsonErrorContent m } ::
              collectToolResults reg cs

/-- `handleRegisteredTools`: runs the handlers sequentially and, when at
least one result was produced, submits all results together (the second
component reifies the `submitExternalToolResults(results)` call). -/
def handleRegisteredTools (reg : Registry) (toolCalls : List ToolCall) :
    List ToolResult × Option (List ToolResult) :=
  let results := collectToolResults reg toolCalls
  (results, if results = [] then none else some results)

/-- A turn: one optional user message plus the assistant messages that
follow it, from `groupMessagesIntoTurns` in the view. -/
structure Turn where
  user : Option Message
  assistants : List Message
deriving DecidableEq, Repr

/-- The scanning loop of `groupMessagesIntoTurns`: `acc` is the list of
closed turns, `cur` the turn currently open. -/
def groupGo : List Message → List Turn → Option Turn → List Turn
  | [], acc, none => acc
  | [], acc, some t => acc ++ [t]
  | m :: rest, acc, cur =>
    if m.role = Role.User then
      groupGo rest (acc ++ cur.toList) (some { user := some m, assistants := [] })
    else if m.role = Role.Assistant then
      match cur with
      | some t => groupGo rest acc (some { t with assistants := t.assistants ++ [m] })
      | none => groupGo rest acc none
    else groupGo rest acc cur

/-- `groupMessagesIntoTurns` from `GuideantsChatView.ts`. -/
def groupMessagesIntoTurns (msgs : List Message) : List Turn :=
  groupGo msgs [] none

/-- All messages of a list of turns, in display order. -/
def flattenTurns (ts : List Turn) : List Message :=
  ts.flatMap fun t => t.user.toList ++ t.assistants

/-- `getTurnCount` from `GuideantsChatState.ts`: the number of `User`
messages. -/
def countUserMessages (msgs : List Message) : Nat :=
  (msgs.filter fun m => m.role == Role.User).length

/-- `goToTurn` from the controller: only acts in `last-turn` mode and for
an index inside `[1, turnCount]`; on success it records the index and
dispatches a `wf-turn-navigation` notification. -/
def goToTurn (k : Int) (s : ChatState) : ChatState × List Emit :=
  if s.displayMode ≠ DisplayMode.lastTurn then (s, [])
  else if k < 1 ∨ k > (countUserMessages s.messages : Int) then (s, [])
  else ({ s with activeTurnIndex := some k },
        [Emit.turnNavigation k (countUserMessages s.messages)])

/-- `beginResumeStream` from the controller: a no-op while a stream with an
active slot is running; otherwise marks streaming and creates a fresh
placeholder only when no streaming assistant message exists. -/
def beginResumeStream (now : Nat) (s : ChatState) : ChatState :=
  if s.isStreaming ∧ s.streamingAssistantMessageId.isSome then s
  else
    let s := { s with isStreaming := true }
    if s.streamingAssistantMessageId.isNone then
      { s with messages := s.messages ++ [freshAssistant now]
               streamingAssistantMessageId := some (freshAssistant now).id }
    else s

/-- `clearConversation` from the controller. -/
def clearConversationOp (s : ChatState) : ChatState :=
  { s with conversationId := none, conversationContext := none, messages := []
           authError := none, activeTurnIndex := none }

/-- The outcomes of the asynchronous collaborators touched by one send or
tool-result submission, reified as data. -/
structure NetEnv where
  startConversation : Except JsErr String := .ok "conv-1"
  fetchHistory : Except JsErr (List Message) := .ok []
  streamEvents : Except JsErr (List SseEvent) := .ok []
  finalFetchHistory : Except JsErr (List Message) := .ok []
  contextValue : Option String := none

/-- Replaces the content of the last `Assistant` message, scanning from the
end as `loadConversation` does; no change when no assistant message exists. -/
def setFirstAssistantContentRev (content : String) : List Message → List Message
  | [] => []
  | m :: ms =>
    if m.role = Role.Assistant then { m with content := content } :: ms
    else m :: setFirstAssistantContentRev content ms

/-- The sanitized-content override applied to the last assistant message of
a freshly fetched history. -/
def setLastAssistantContent (content : String) (msgs : List Message) : List Message :=
  (setFirstAssistantContentRev content msgs.reverse).reverse

/-- `loadConversation`: replaces the message list with the fetched history,
applying (and clearing) the cached `message`-event content override to the
last assistant message when one was cached.  The second component is the
error thrown, if any. -/
def loadConversationR (fetch : Except JsErr (List Message)) (s : ChatState) :
    ChatState × Option JsErr :=
  match s.conversationId with
  | none => (s, none)
  | some _ =>
    match fetch with
    | .error e => (s, some e)
    | .ok h =>
      let sanVal := s.sanitizedMessageContent.getD ""
      if sanVal ≠ "" then
        ({ s with messages := setLastAssistantContent sanVal h
                  sanitizedMessageContent := none }, none)
      else ({ s with messages := h }, none)

/-- `ensureResolvedIds`: passes when the guide ids are resolved (after
`initialize`, which performs only network configuration fetches, the
throw re-checks only project and notebook ids); throws otherwise.  The
configuration fetch inside `initialize` is outside this model, so ids
never become resolved here. -/
def ensureResolvedIdsR (s : ChatState) : Option JsErr :=
  if s.projectId.isSome ∧ s.notebookId.isSome ∧ s.guideId.isSome then none
  else if s.projectId.isSome ∧ s.notebookId.isSome then none
  else some (.generic "Missing guide configuration")

/-- The context-capture step at conversation start: a context provider
value is captured at most once (only while no context is stored) and only
when its trimmed value is non-empty. -/
def captureContext (env : NetEnv) (s : ChatState) : ChatState :=
  match env.contextValue with
  | some cv =>
    if s.conversationContext.isNone ∧ cv.trim ≠ "" then
      { s with conversationContext := some cv.trim }
    else s
  | none => s

/-- `ensureConversation`: reload when a conversation exists; otherwise
resolve ids, capture context, start a conversation and load it. -/
def ensureConversationR (env : NetEnv) (s : ChatState) : ChatState × Option JsErr :=
  match s.conversationId with
  | some _ => loadConversationR env.fetchHistory s
  | none =>
    match ensureResolvedIdsR s with
    | some e => (s, some e)
    | none =>
      let s := captureContext env s
      match env.startConversation with
      | .error e => (s, some e)
      | .ok cid =>
        if cid = "" then
          ({ s with conversationId := some cid },
           some (.generic "conversation id missing from start response"))
        else loadConversationR env.fetchHistory { s with conversationId := some cid }

/-- `normalizeAttachments`: keeps attachments with a non-empty trimmed
file id and a known upload type, dropping any extra fields; returns
`none` for an empty input or an empty normalized list. -/
def normalizeAttachments (list : List PublishedAttachment) :
    Option (List PublishedAttachment) :=
  if list = [] then none
  else
    let normalized := list.filterMap fun att =>
      let i := att.notebookFileId.trim
      if i ≠ "" ∧ (att.uploadType = "ImageFile" ∨ att.uploadType = "ImageUrl" ∨
          att.uploadType = "AudioFile" ∨ att.uploadType = "TextFile" ∨
          att.uploadType = "SandboxFile") then
        some { notebookFileId := i, uploadType := att.uploadType }
      else none
    if normalized = [] then none else some normalized

/-- The truthy `maxUserMessageLength` guard of `performSend`. -/
def maxLenExceeded (s : ChatState) (content : String) : Bool :=
  match s.publishedGuideConfig.bind (·.maxUserMessageLength) with
  | some n => n != 0 && content.length > n
  | none => false

/-- The truthy `maxTurns` guard of `performSend`. -/
def maxTurnsReached (s : ChatState) : Bool :=
  match s.publishedGuideConfig.bind (·.maxTurns) with
  | some n => n != 0 && countUserMessages s.messages ≥ n
  | none => false

/-- The inline error shown when the message length guard fires. -/
def maxLenMessage (s : ChatState) : String :=
  "Message exceeds maximum length of " ++
    toString ((s.publishedGuideConfig.bind (·.maxUserMessageLength)).getD 0) ++
    " characters"

/-- The inline error shown when the turn limit guard fires. -/
def maxTurnsMessage (s : ChatState) : String :=
  "This conversation has reached the maximum of " ++
    toString ((s.publishedGuideConfig.bind (·.maxTurns)).getD 0) ++ " turns"

/-- The rollback filter of the `performSend` catch block: removes every
message whose id carries the local temporary prefix. -/
def tempFilterRollback (msgs : List Message) : List Message :=
  msgs.filter fun m => !(strStartsWith m.id "temp-")

/-- The shared catch-surface of the operation boundaries: an
authentication error is recorded and dispatched as `wf-auth-error`; any
other error sets the inline banner (with the operation fallback text for
an empty message) and is dispatched as `wf-error`. -/
def catchSurface (fallback : String) (e : JsErr) (s : ChatState) :
    ChatState × List Emit :=
  match e with
  | .auth code msg req =>
    ({ s with authError := some (code, msg), inlineError := some msg },
     [Emit.authError code msg req])
  | .generic msg =>
    ({ s with inlineError := some (if msg = "" then fallback else msg) },
     [Emit.error msg])

/-- The `finally` path of the send and submit flows: always restores
`isStreaming = false` and clears the streaming cursor. -/
def finallyCleanup (s : ChatState) : ChatState :=
  { s with isStreaming := false, streamingAssistantMessageId := none
           sanitizedMessageContent := none }

/-- The optimistic local user message appended before the network call
resolves. -/
def optimisticUserMessage (now : Nat) (content : String)
    (atts : List PublishedAttachment) : Message :=
  { id := "temp-user-" ++ toString now, role := .User, content := content
    created := now, isEdited := false, attachments := atts }

/-- Result of the `try` body of `performSend`: partial state, emissions and
spawned batches at the point of return or throw, plus the thrown error. -/
structure TryResult where
  state : ChatState
  emits : List Emit
  spawned : List (List ToolCall)
  err : Option JsErr
deriving Repr

/-- The `try` body of `performSend`: ensure a conversation, append the
optimistic user message and empty assistant placeholder, stream the
response events, then reload the authoritative history and emit
`wf-complete`. -/
def sendTryBody (hasTool : String → Bool) (hasCb : Bool) (env : NetEnv) (now : Nat)
    (content : String) (allAttachments : List PublishedAttachment)
    (s : ChatState) : TryResult :=
  let ec := ensureConversationR env s
  match ec.2 with
  | some e => ⟨ec.1, [], [], some e⟩
  | none =>
    let s1 := ec.1
    let s2 := { s1 with
      messages := s1.messages ++ [optimisticUserMessage now content allAttachments] }
    let s2 :=
      if s2.displayMode = DisplayMode.lastTurn then { s2 with activeTurnIndex := none }
      else s2
    let asst := freshAssistant now
    let s3 := { s2 with messages := s2.messages ++ [asst]
                        streamingAssistantMessageId := some asst.id }
    match env.streamEvents with
    | .error e => ⟨s3, [], [], some e⟩
    | .ok evs =>
      let r := runEvents hasTool hasCb evs (now + 1) s3
      let l := loadConversationR env.finalFetchHistory r.1
      match l.2 with
      | some e => ⟨l.1, r.2.1, r.2.2, some e⟩
      | none => ⟨l.1, r.2.1 ++ [Emit.complete], r.2.2, none⟩

/-- The pre-flight phase of `performSend`: expand a collapsed component
(dispatching `wf-expanded`) and reset the session in command mode. -/
def performSendPre (s : ChatState) : ChatState × List Emit :=
  let s1 := if s.collapsible ∧ s.isCollapsed then { s with isCollapsed := false } else s
  let emits0 : List Emit :=
    if s.collapsible ∧ s.isCollapsed then [Emit.expanded] else []
  let s2 := if s1.commandMode then clearConversationOp s1 else s1
  (s2, emits0)

/-- The guarded main phase of `performSend`, from id resolution onward:
resolve ids, take the pending attachment queue, check the length and turn
limits, then run the optimistic append and stream with rollback and the
`finally` cleanup. -/
def performSendCore (hasTool : String → Bool) (hasCb : Bool) (env : NetEnv)
    (now : Nat) (content : String) (attachments : List PublishedAttachment)
    (s : ChatState) (emits0 : List Emit) : OpResult :=
  let normalizedAttachments := normalizeAttachments attachments
  match ensureResolvedIdsR s with
  | some (.auth code msg req) =>
    ⟨{ s with authError := some (code, msg), inlineError := some msg },
     emits0 ++ [Emit.authError code msg req], []⟩
  | some (.generic msg) =>
    ⟨showErrorState
      (if msg = "" then "Failed to load published guide configuration" else msg) s,
     emits0, []⟩
  | none =>
    let pending := s.pendingAttachments
    let sP := { s with pendingAttachments := ([] : List PendingAttachment) }
    let allAttachments := normalizedAttachments.getD [] ++
      pending.map fun p => { p.published with fileName := some p.fileName }
    if maxLenExceeded sP content then
      ⟨showErrorState (maxLenMessage sP) { sP with pendingAttachments := pending },
       emits0, []⟩
    else if maxTurnsReached sP then
      ⟨showErrorState (maxTurnsMessage sP) sP, emits0, []⟩
    else
      let sS := { sP with isStreaming := true }
      let emits1 := emits0 ++ [Emit.streamStart]
      let t := sendTryBody hasTool hasCb env now content allAttachments sS
      match t.err with
      | none => ⟨finallyCleanup t.state, emits1 ++ t.emits, t.spawned⟩
      | some e =>
        let s2 := { t.state with messages := tempFilterRollback t.state.messages }
        let s2 := if pending = [] then s2 else { s2 with pendingAttachments := pending }
        let c := catchSurface "Request failed" e s2
        ⟨finallyCleanup c.1, emits1 ++ t.emits ++ c.2, t.spawned⟩

/-- `performSend` from the controller: guards (pub id, message length, turn
limit), collapse expansion, command-mode reset, the optimistic append and
stream, with rollback of temporary messages and restoration of taken
pending attachments on failure, and the `finally` cleanup of the
streaming cursor. -/
def performSend (hasTool : String → Bool) (hasCb : Bool) (env : NetEnv) (now : Nat)
    (content : String) (attachments : List PublishedAttachment)
    (s : ChatState) : OpResult :=
  if s.pubId.isNone then
    ⟨showErrorState "Missing pub-id attribute" s, [], []⟩
  else
    let p := performSendPre s
    performSendCore hasTool hasCb env now content attachments p.1 p.2

/-- Result of `submitExternalToolResults`: a step result plus the payload
of the resume-endpoint call, when the call was reached. -/
structure ToolSubmitResult where
  state : ChatState
  emits : List Emit
  spawned : List (List ToolCall)
  submitted : Option (List ToolResult)
deriving Repr

/-- `submitExternalToolResults` from the controller: no-op for an empty
result list or while streaming; otherwise marks streaming, emits
`wf-stream-start`, ensures the conversation, always appends a fresh
placeholder assistant message as the streaming slot, submits all results
together to the resume endpoint (streaming the response events), reloads
history and emits `wf-complete`; errors surface through the shared catch
and the `finally` path clears the streaming cursor. -/
def submitExternalToolResults (hasTool : String → Bool) (hasCb : Bool) (env : NetEnv)
    (now : Nat) (results : List ToolResult) (s : ChatState) : ToolSubmitResult :=
  if results = [] then ⟨s, [], [], none⟩
  else if s.isStreaming then ⟨s, [], [], none⟩
  else
    let s := { s with isStreaming := true }
    let emits0 : List Emit := [Emit.streamStart]
    let ec := ensureConversationR env s
    match ec.2 with
    | some e =>
      let c := catchSurface "Submit tool results failed" e ec.1
      ⟨finallyCleanup c.1, emits0 ++ c.2, [], none⟩
    | none =>
      let asst := freshAssistant now
      let s2 := { ec.1 with messages := ec.1.messages ++ [asst]
                            streamingAssistantMessageId := some asst.id }
      match env.streamEvents with
      | .error e =>
        let c := catchSurface "Submit tool results failed" e s2
        ⟨finallyCleanup c.1, emits0 ++ c.2, [], some results⟩
      | .ok evs =>
        let r := runEvents hasTool hasCb evs (now + 1) s2
        let l := loadConversationR env.finalFetchHistory r.1
        match l.2 with
        | some e =>
          let c := catchSurface "Submit tool results failed" e l.1
          ⟨finallyCleanup c.1, emits0 ++ r.2.1 ++ c.2, r.2.2, some results⟩
        | none =>
          ⟨finallyCleanup l.1, emits0 ++ r.2.1 ++ [Emit.complete], r.2.2, some results⟩

/-- The per-line decoding loop shared by `streamAssistantMessage` and
`submitToolResults`: an `event:` line sets the current event type, a
`data:` line whose payload parses is delivered with the current type
(defaulting to `data`), a `data:` line whose payload does not parse is
skipped, and a blank line resets the event type.  The function is total:
a malformed payload never raises.  `parse` stands for `JSON.parse`
wrapped in the try/catch of the source. -/
def processSseLines {α : Type} (parse : String → Option α) :
    List String → String → List (String × α)
  | [], _ => []
  | l :: ls, cur =>
    if strStartsWith l "event: " then processSseLines parse ls (strDrop l 7)
    else if strStartsWith l "data: " then
      match parse (strDrop l 6) with
      | some v => (if cur = "" then "data" else cur, v) :: processSseLines parse ls cur
      | none => processSseLines parse ls cur
    else if l = "" then processSseLines parse ls ""
    else processSseLines parse ls cur

/-! ### Helper lemmas -/

theorem dataLine_not_event (j : String) :
    strStartsWith ("data: " ++ j) "event: " = false := by
  simp only [strStartsWith, String.data_append]
  rfl

theorem dataLine_is_data (j : String) :
    strStartsWith ("data: " ++ j) "data: " = true := by
  simp only [strStartsWith, String.data_append]
  rw [List.isPrefixOf_iff_prefix]
  exact List.prefix_append _ _

theorem dataLine_drop (j : String) : strDrop ("data: " ++ j) 6 = j := by
  simp only [strDrop, String.data_append]
  rfl

/-! ### Claim C9 -/

/-- Claim C9: for every `data:` line of an event stream whose payload is
not valid JSON, the event is silently dropped: the decoding loop is a
total function (no error is raised), and the decoded output with the
malformed line present equals the output with it removed, so every
subsequent well-formed event is still delivered, in arrival order. -/
theorem malformed_data_line_is_dropped {α : Type} (parse : String → Option α)
    (P S : List String) (junk : String) (cur : String)
    (hjunk : parse junk = none) :
    processSseLines parse (P ++ ("data: " ++ junk) :: S) cur =
      processSseLines parse (P ++ S) cur := by
  induction P generalizing cur with
  | nil =>
    simp only [List.nil_append, processSseLines, dataLine_not_event, dataLine_is_data,
      dataLine_drop, hjunk, Bool.false_eq_true, if_false, if_true]
  | cons p P ih =>
    simp only [List.cons_append, processSseLines]
    by_cases h1 : strStartsWith p "event: " = true
    · simp only [h1, if_true]
      exact ih _
    · simp only [h1, if_false]
      by_cases h2 : strStartsWith p "data: " = true
      · simp only [h2, if_true]
        cases hp : parse (strDrop p 6) with
        | none => exact ih _
        | some v =>
          exact congrArg (fun l => (if cur = "" then "data" else cur, v) :: l) (ih cur)
      · simp only [h2, if_false]
        by_cases h3 : p = ""
        · simp only [h3, if_true]
          exact ih _
        · simp only [h3, if_false]
          exact ih _

/-- Witness for C9 at a concrete stream: a malformed payload between two
well-formed events is dropped and the events around it are delivered. -/
theorem malformed_data_line_is_dropped_witness :
    (fun x => if x = "1" then some 1 else none : String → Option Nat) "oops" = none ∧
    processSseLines (fun x => if x = "1" then some 1 else none)
        (["event: token", "data: 1"] ++ ("data: " ++ "oops") :: ["data: 1"]) "" =
      processSseLines (fun x => if x = "1" then some 1 else none)
        (["event: token", "data: 1"] ++ ["data: 1"]) "" :=
  ⟨rfl, malformed_data_line_is_dropped _ _ _ _ _ rfl⟩

/-! ### Claim C4 -/

/-- Is the message kept by the turn-grouping scan at all? -/
def isUserOrAssistant (m : Message) : Bool :=
  m.role == Role.User || m.role == Role.Assistant

/-- Modelled from the spec: the reassembled message order the claim
expects, namely the original list with only the leading orphan
`Assistant` messages before the first `User` message removed. -/
def specExpectedReassembly (msgs : List Message) : List Message :=
  msgs.dropWhile fun m => m.role == Role.Assistant

theorem countUser_cons (m : Message) (rest : List Message) :
    countUserMessages (m :: rest) =
      (if m.role = Role.User then 1 else 0) + countUserMessages rest := by
  simp only [countUserMessages, List.filter_cons, beq_iff_eq]
  split <;> simp [Nat.add_comm]

theorem flattenTurns_append (a b : List Turn) :
    flattenTurns (a ++ b) = flattenTurns a ++ flattenTurns b := by
  simp [flattenTurns]

theorem groupGo_length (msgs : List Message) :
    ∀ (acc : List Turn) (cur : Option Turn),
      (groupGo msgs acc cur).length =
        acc.length + (match cur with | some _ => 1 | none => 0) +
          countUserMessages msgs := by
  induction msgs with
  | nil =>
    intro acc cur
    cases cur <;> simp [groupGo, countUserMessages]
  | cons m rest ih =>
    intro acc cur
    rw [countUser_cons]
    simp only [groupGo]
    by_cases hU : m.role = Role.User
    · rw [if_pos hU, if_pos hU, ih]
      cases cur <;> simp [Option.toList] <;> omega
    · rw [if_neg hU, if_neg hU]
      by_cases hA : m.role = Role.Assistant
      · rw [if_pos hA]
        cases cur with
        | none => rw [ih]; simp
        | some t => rw [ih]; simp
      · rw [if_neg hA, ih]; simp

theorem groupGo_flatten (msgs : List Message) :
    ∀ (acc : List Turn) (cur : Option Turn),
      flattenTurns (groupGo msgs acc cur) =
        flattenTurns acc ++
          (match cur with
            | none =>
              (msgs.filter isUserOrAssistant).dropWhile
                fun m => m.role == Role.Assistant
            | some t => t.user.toList ++ t.assistants ++ msgs.filter isUserOrAssistant) := by
  induction msgs with
  | nil =>
    intro acc cur
    cases cur with
    | none => simp [groupGo]
    | some t => simp [groupGo, flattenTurns_append, flattenTurns]
  | cons m rest ih =>
    intro acc cur
    simp only [groupGo]
    by_cases hU : m.role = Role.User
    · rw [if_pos hU, ih]
      have hXA : (m.role == Role.Assistant) = false := by
        simp [hU]
      have hKeep : isUserOrAssistant m = true := by
        simp [isUserOrAssistant, hU]
      cases cur with
      | none =>
        simp [List.filter_cons, hKeep, List.dropWhile, hXA, flattenTurns_append,
          flattenTurns, Option.toList]
      | some t =>
        simp [List.filter_cons, hKeep, flattenTurns_append, flattenTurns,
          Option.toList]
    · rw [if_neg hU]
      by_cases hA : m.role = Role.Assistant
      · rw [if_pos hA]
        have hXA : (m.role == Role.Assistant) = true := by simp [hA]
        have hKeep : isUserOrAssistant m = true := by
          simp [isUserOrAssistant, hA]
        cases cur with
        | none =>
          rw [ih]
          simp [List.filter_cons, hKeep, List.dropWhile, hXA]
        | some t =>
          rw [ih]
          simp [List.filter_cons, hKeep]
      · rw [if_neg hA, ih]
        have hKeep : isUserOrAssistant m = false := by
          simp [isUserOrAssistant, hU, hA]
        cases cur with
        | none => simp [List.filter_cons, hKeep]
        | some t => simp [List.filter_cons, hKeep]

/-- Counterexample to C4 as stated: for the two-message list
`[User, System]` there are no leading orphan `Assistant` messages, yet
concatenating the turns loses the `System` message, so the reassembly
does not reproduce the original order. -/
theorem turn_grouping_reassembly_counterexample :
    flattenTurns (groupMessagesIntoTurns
        [ { id := "u1", role := .User, content := "hello", created := 0, isEdited := false },
          { id := "s1", role := .System, content := "sys", created := 1, isEdited := false } ]) ≠
      specExpectedReassembly
        [ { id := "u1", role := .User, content := "hello", created := 0, isEdited := false },
          { id := "s1", role := .System, content := "sys", created := 1, isEdited := false } ] := by
  decide

/-- Claim C4 (amended): for any message list, the turn count equals the
number of `User` messages, and concatenating all turns reproduces the
original order of the `User` and `Assistant` messages with the leading
orphan `Assistant` messages removed — messages with role `System` or
`Tool` are also dropped by the grouping, not only leading orphan
assistants. -/
theorem turn_grouping_counts_and_reassembles (msgs : List Message) :
    (groupMessagesIntoTurns msgs).length = countUserMessages msgs ∧
    flattenTurns (groupMessagesIntoTurns msgs) =
      (msgs.filter isUserOrAssistant).dropWhile
        (fun m => m.role == Role.Assistant) := by
  constructor
  · rw [groupMessagesIntoTurns, groupGo_length]
    simp
  · rw [groupMessagesIntoTurns, groupGo_flatten]
    simp [flattenTurns]

/-! ### Claim C8 -/

/-- Claim C8: `goToTurn k` is a no-op - it changes no state (in
particular `activeTurnIndex`) and emits no `turn-navigation` event -
whenever `k` is outside `[1, turnCount]` or the display mode is not
`last-turn`. -/
theorem goToTurn_out_of_range_noop (s : ChatState) (k : Int)
    (h : s.displayMode ≠ DisplayMode.lastTurn ∨ k < 1 ∨
        k > (countUserMessages s.messages : Int)) :
    goToTurn k s = (s, []) := by
  unfold goToTurn
  by_cases h1 : s.displayMode ≠ DisplayMode.lastTurn
  · rw [if_pos h1]
  · rw [if_neg h1]
    have h2 : k < 1 ∨ k > (countUserMessages s.messages : Int) := by
      rcases h with h | h | h
      · exact absurd h h1
      · exact Or.inl h
      · exact Or.inr h
    rw [if_pos h2]

/-- A one-user-message state, in `full` display mode. -/
def c8WitnessState : ChatState :=
  { messages :=
      [ { id := "u1", role := .User, content := "x", created := 0, isEdited := false } ] }

/-- Witness for C8: turn index 5 with one user message in full mode. -/
theorem goToTurn_out_of_range_noop_witness :
    goToTurn 5 c8WitnessState = (c8WitnessState, []) :=
  goToTurn_out_of_range_noop _ _ (Or.inl (by decide))

/-! ### Claim C1 -/

/-- Claim C1: on an `external_tool_call` event whose tool calls include at
least one tool name with no registered handler, no handler is invoked
(no batch is spawned), the error naming the missing tools is surfaced
inline and dispatched as the only notification, no tool results are
submitted (no resumption is spawned), and `isStreaming` is false
afterwards; the message list is untouched. -/
theorem missing_tool_handler_aborts (hasTool : String → Bool) (hasCb : Bool)
    (now : Nat) (d : SseData) (s : ChatState)
    (hmiss : missingHandlers hasTool (d.toolCalls.getD []) ≠ []) :
    handleSseEvent hasTool hasCb now { type := "external_tool_call", data := some d } s =
      { state :=
          { s with isStreaming := false
                   inlineError := some (missingHandlersMessage
                      (missingHandlers hasTool (d.toolCalls.getD []))) }
        emits := [Emit.error (missingHandlersMessage
                    (missingHandlers hasTool (d.toolCalls.getD [])))]
        spawned := [] } := by
  have htc : d.toolCalls.getD [] ≠ [] := by
    intro hnil
    apply hmiss
    rw [hnil]
    rfl
  simp only [handleSseEvent]
  rw [if_neg (show ¬ (("external_tool_call" : String) = "token") by decide),
      if_neg (show ¬ (("external_tool_call" : String) = "assistant_message") by decide),
      if_pos trivial]
  simp only [handleExternalToolCall, getToolCalls, Option.bind, showErrorState]
  rw [if_neg htc, if_pos hmiss]

/-- A call requesting a tool that no handler is registered for. -/
def c1Call : ToolCall := { id := "call-1", fname := some "frobnicate" }

/-- The event payload carrying that single call. -/
def c1Data : SseData := { toolCalls := some [c1Call] }

/-- Witness for C1: an empty registry and one requested tool. -/
theorem missing_tool_handler_aborts_witness :
    missingHandlers (fun _ => false) ((c1Data.toolCalls).getD []) ≠ [] ∧
    handleSseEvent (fun _ => false) false 7
        { type := "external_tool_call", data := some c1Data } {} =
      { state :=
          { ({} : ChatState) with
              isStreaming := false,
              inlineError := some (missingHandlersMessage
                (missingHandlers (fun _ => false) ((c1Data.toolCalls).getD []))) }
        emits := [Emit.error (missingHandlersMessage
              (missingHandlers (fun _ => false) ((c1Data.toolCalls).getD [])))]
        spawned := [] } :=
  ⟨by decide, missing_tool_handler_aborts _ _ _ _ _ (by decide)⟩

/-! ### Claim C2 -/

/-- The direction of the stream-cursor invariant the code maintains: a
cleared streaming-message id implies streaming is off. -/
def StreamCursorInv (s : ChatState) : Prop :=
  s.streamingAssistantMessageId = none → s.isStreaming = false

/-- Counterexample to C2 as stated: from the initial state (which
satisfies the claimed iff), a handled `message` stream event creates a
streaming assistant message id while leaving `isStreaming` false, so
afterwards the id is non-null with `isStreaming = false` and the claimed
iff fails.  (An `external_tool_call` mid-stream similarly clears
`isStreaming` while retaining the id.) -/
theorem stream_cursor_iff_counterexample :
    (handleSseEvent (fun _ => false) false 0
        { type := "message", data := some { content := some "hi" } } {}).state.isStreaming
      = false ∧
    (handleSseEvent (fun _ => false) false 0
        { type := "message", data := some { content := some "hi" } } {}).state.streamingAssistantMessageId
      = some "temp-assistant-0" := by
  constructor <;> rfl

theorem streamCursorInv_finallyCleanup (s : ChatState) :
    StreamCursorInv (finallyCleanup s) := fun _ => rfl

theorem streamCursorInv_handleToken (now : Nat) (d : String) (s : ChatState)
    (h : StreamCursorInv s) : StreamCursorInv (handleToken now d s) := by
  unfold handleToken
  cases hid : s.streamingAssistantMessageId with
  | none =>
    simp only [hid, Option.isNone_none, if_true]
    split
    · intro hc
      simp at hc
    · intro hc
      simp at hc
  | some i =>
    simp only [hid, Option.isNone_some, Bool.false_eq_true, if_false]
    split
    · intro hc
      simp only [hid] at hc
      exact absurd hc (by simp)
    · exact h

theorem streamCursorInv_handleAssistantMessage (now : Nat) (c : String) (s : ChatState)
    (h : StreamCursorInv s) : StreamCursorInv (handleAssistantMessage now c s) := by
  unfold handleAssistantMessage
  cases hid : s.streamingAssistantMessageId with
  | none =>
    simp only [hid, Option.isNone_none, if_true]
    split
    · intro hc
      simp at hc
    · intro hc
      simp at hc
  | some i =>
    simp only [hid, Option.isNone_some, Bool.false_eq_true, if_false]
    split
    · intro hc
      simp only [hid] at hc
      exact absurd hc (by simp)
    · exact h

theorem streamCursorInv_handleMessageEvent (now : Nat) (c : String) (s : ChatState)
    (h : StreamCursorInv s) : StreamCursorInv (handleMessageEvent now c s) := by
  unfold handleMessageEvent
  split
  · cases hid : s.streamingAssistantMessageId with
    | none =>
      simp only [hid, Option.isNone_none, if_true]
      intro hc
      simp at hc
    | some i =>
      simp only [hid, Option.isNone_some, Bool.false_eq_true, if_false]
      intro hc
      simp only [hid] at hc
      exact absurd hc (by simp)
  · exact h

theorem handleExternalToolCall_isStreaming_false (hasTool : String → Bool)
    (hasCb : Bool) (evt : SseEvent) (s : ChatState) :
    (handleExternalToolCall hasTool hasCb evt s).state.isStreaming = false := by
  simp only [handleExternalToolCall, showErrorState]
  split
  · rfl
  · split
    · rfl
    · rfl

theorem streamCursorInv_handleSseEvent (hasTool : String → Bool) (hasCb : Bool)
    (now : Nat) (evt : SseEvent) (s : ChatState) (h : StreamCursorInv s) :
    StreamCursorInv (handleSseEvent hasTool hasCb now evt s).state := by
  unfold handleSseEvent
  split
  · exact streamCursorInv_handleToken now _ s h
  · split
    · exact streamCursorInv_handleAssistantMessage now _ s h
    · split
      · exact fun _ => handleExternalToolCall_isStreaming_false hasTool hasCb _ s
      · split
        · exact streamCursorInv_handleMessageEvent now _ s h
        · split
          · exact h
          · split
            · exact fun _ => rfl
            · exact h

theorem streamCursorInv_performSendPre (s : ChatState) (h : StreamCursorInv s) :
    StreamCursorInv (performSendPre s).1 := by
  simp only [performSendPre]
  split
  · split
    · exact h
    · exact h
  · split
    · exact h
    · exact h

theorem streamCursorInv_performSendCore (hasTool : String → Bool) (hasCb : Bool)
    (env : NetEnv) (now : Nat) (content : String)
    (atts : List PublishedAttachment) (s : ChatState) (emits0 : List Emit)
    (h : StreamCursorInv s) :
    StreamCursorInv (performSendCore hasTool hasCb env now content atts s emits0).state := by
  simp only [performSendCore]
  split
  · exact h
  · exact h
  · split
    · exact h
    · split
      · exact h
      · split
        · exact streamCursorInv_finallyCleanup _
        · exact streamCursorInv_finallyCleanup _

theorem streamCursorInv_performSend (hasTool : String → Bool) (hasCb : Bool)
    (env : NetEnv) (now : Nat) (content : String)
    (atts : List PublishedAttachment) (s : ChatState) (h : StreamCursorInv s) :
    StreamCursorInv (performSend hasTool hasCb env now content atts s).state := by
  simp only [performSend]
  split
  · exact h
  · exact streamCursorInv_performSendCore hasTool hasCb env now content atts _ _
      (streamCursorInv_performSendPre s h)

theorem streamCursorInv_submitExternalToolResults (hasTool : String → Bool)
    (hasCb : Bool) (env : NetEnv) (now : Nat) (results : List ToolResult)
    (s : ChatState) (h : StreamCursorInv s) :
    StreamCursorInv (submitExternalToolResults hasTool hasCb env now results s).state := by
  simp only [submitExternalToolResults]
  split
  · exact h
  · split
    · exact h
    · split
      · exact streamCursorInv_finallyCleanup _
      · split
        · exact streamCursorInv_finallyCleanup _
        · split
          · exact streamCursorInv_finallyCleanup _
          · exact streamCursorInv_finallyCleanup _

theorem streamCursorInv_beginResumeStream (now : Nat) (s : ChatState)
    (h : StreamCursorInv s) : StreamCursorInv (beginResumeStream now s) := by
  simp only [beginResumeStream]
  split
  · exact h
  · split
    · intro hc
      simp at hc
    · rename_i hguard hsome
      intro hc
      rw [Option.isNone_iff_eq_none] at hsome
      exact absurd hc hsome

/-- Claim C2 (amended): at most one streaming assistant message exists at
a time (the cursor is a single optional id), and one direction of the
claimed iff is an invariant of every verified public operation and every
handled stream event: whenever `streamingAssistantMessageId` is null,
`isStreaming` is false.  The converse direction fails (see the
counterexample): `external_tool_call` clears `isStreaming` while
retaining the id for resumption, and a `message` event can create the id
while `isStreaming` stays false. -/
theorem stream_cursor_invariant_preserved :
    (∀ hasTool hasCb now evt s, StreamCursorInv s →
        StreamCursorInv (handleSseEvent hasTool hasCb now evt s).state) ∧
    (∀ hasTool hasCb env now content atts s, StreamCursorInv s →
        StreamCursorInv (performSend hasTool hasCb env now content atts s).state) ∧
    (∀ hasTool hasCb env now results s, StreamCursorInv s →
        StreamCursorInv (submitExternalToolResults hasTool hasCb env now results s).state) ∧
    (∀ now s, StreamCursorInv s → StreamCursorInv (beginResumeStream now s)) ∧
    (∀ k s, StreamCursorInv s → StreamCursorInv (goToTurn k s).1) ∧
    (∀ s, StreamCursorInv s → StreamCursorInv (clearConversationOp s)) := by
  refine ⟨?_, ?_, ?_, ?_, ?_, ?_⟩
  · exact fun hasTool hasCb now evt s h =>
      streamCursorInv_handleSseEvent hasTool hasCb now evt s h
  · exact fun hasTool hasCb env now content atts s h =>
      streamCursorInv_performSend hasTool hasCb env now content atts s h
  · exact fun hasTool hasCb env now results s h =>
      streamCursorInv_submitExternalToolResults hasTool hasCb env now results s h
  · exact fun now s h => streamCursorInv_beginResumeStream now s h
  · intro k s h
    unfold goToTurn
    split
    · exact h
    · split
      · exact h
      · exact h
  · exact fun s h => h

/-- Witness for the amended C2: the invariant holds of the initial state
and is carried through a handled `complete` event. -/
theorem stream_cursor_invariant_preserved_witness :
    StreamCursorInv ({} : ChatState) ∧
    StreamCursorInv (handleSseEvent (fun _ => false) false 0
        { type := "complete" } {}).state :=
  ⟨fun _ => rfl,
   stream_cursor_invariant_preserved.1 (fun _ => false) false 0
     { type := "complete" } {} (fun _ => rfl)⟩

/-! ### Claim C5 -/

theorem setContentOfFirst_append_self (i : String) (f : String → String)
    (ms : List Message) (m : Message) (hm : m.id = i)
    (hnot : (ms.all fun x => x.id != i) = true) :
    setContentOfFirst i f (ms ++ [m]) = ms ++ [{ m with content := f m.content }] := by
  induction ms with
  | nil =>
    simp only [List.nil_append, setContentOfFirst, if_pos hm]
  | cons x xs ih =>
    rw [List.all_cons, Bool.and_eq_true] at hnot
    have hx : ¬ x.id = i := by
      have := hnot.1
      simpa using this
    simp only [List.cons_append, setContentOfFirst, if_neg hx]
    exact congrArg (x :: ·) (ih hnot.2)

theorem setContentOfFirst_append_empty (i : String) (ms : List Message) :
    setContentOfFirst i (fun c => c ++ "") ms = ms := by
  induction ms with
  | nil => rfl
  | cons m rest ih =>
    simp only [setContentOfFirst]
    split
    · have hc : m.content ++ "" = m.content := by simp
      rw [hc]
    · rw [ih]

/-- The optimistic state right after `performSend` appended the user
message "Hello" and the empty assistant placeholder (clock 0). -/
def scenarioSendState : ChatState :=
  { pubId := some "pub", conversationId := some "c1", projectId := some "p"
    notebookId := some "n", guideId := some "g"
    messages :=
      [ { id := "temp-user-0", role := .User, content := "Hello", created := 0
          isEdited := false },
        freshAssistant 0 ]
    isStreaming := true
    streamingAssistantMessageId := some (freshAssistant 0).id }

/-- The stream of the scenario: two token deltas and a completion. -/
def scenarioEvents : List SseEvent :=
  [ { type := "token", data := some { contentDelta := some "Hi" } },
    { type := "token", data := some { contentDelta := some " there" } },
    { type := "complete" } ]

/-- Claim C5: a `token` event appends the content delta to the active
streaming assistant message, creating an empty streaming message first
(and marking streaming) if none is active; and for a send of "Hello"
whose stream delivers the token deltas "Hi" and " there" followed by
`complete`, the interpreter leaves the assistant message content exactly
"Hi there", `isStreaming` false, and the turn count 1. -/
theorem token_event_appends_delta :
    (∀ (hasTool : String → Bool) (hasCb : Bool) (s : ChatState) (now : Nat) (d : String),
      s.streamingAssistantMessageId = none →
      (s.messages.all fun m => m.id != (freshAssistant now).id) = true →
      (handleSseEvent hasTool hasCb now
          { type := "token", data := some { contentDelta := some d } } s).state =
        { s with isStreaming := true
                 messages := s.messages ++ [{ freshAssistant now with content := d }]
                 streamingAssistantMessageId := some (freshAssistant now).id }) ∧
    (∀ (hasTool : String → Bool) (hasCb : Bool) (s : ChatState) (now : Nat)
        (d i : String),
      s.streamingAssistantMessageId = some i →
      (handleSseEvent hasTool hasCb now
          { type := "token", data := some { contentDelta := some d } } s).state =
        { s with messages := setContentOfFirst i (· ++ d) s.messages }) ∧
    ((runEvents (fun _ => false) false scenarioEvents 1 scenarioSendState).1.messages.map
        (fun m => m.content) = ["Hello", "Hi there"] ∧
      (runEvents (fun _ => false) false scenarioEvents 1 scenarioSendState).1.isStreaming
        = false ∧
      countUserMessages
        (runEvents (fun _ => false) false scenarioEvents 1 scenarioSendState).1.messages
        = 1 ∧
      (groupMessagesIntoTurns
        (runEvents (fun _ => false) false scenarioEvents 1 scenarioSendState).1.messages).length
        = 1) := by
  have hstep : ∀ (hasTool : String → Bool) (hasCb : Bool) (now : Nat) (d : String)
      (s : ChatState),
      (handleSseEvent hasTool hasCb now
          { type := "token", data := some { contentDelta := some d } } s).state =
        handleToken now d s := by
    intro hasTool hasCb now d s
    simp [handleSseEvent, getContentDelta]
  refine ⟨?_, ?_, by decide⟩
  · intro hasTool hasCb s now d hnone hfree
    rw [hstep]
    simp only [handleToken, hnone, Option.isNone_none, if_true]
    by_cases hd : d = ""
    · subst hd
      simp only [ne_eq, not_true_eq_false, if_false]
      rfl
    · rw [if_pos (show ¬ d = "" from hd)]
      rw [setContentOfFirst_append_self _ _ _ _ rfl hfree]
      simp [freshAssistant]
  · intro hasTool hasCb s now d i hsome
    rw [hstep]
    simp only [handleToken, hsome, Option.isNone_some, Bool.false_eq_true, if_false]
    by_cases hd : d = ""
    · subst hd
      simp only [ne_eq, not_true_eq_false, if_false]
      rw [setContentOfFirst_append_empty i s.messages, ← hsome]
    · rw [if_pos (show ¬ d = "" from hd)]

/-- Witness for C5: both token branches at concrete states. -/
theorem token_event_appends_delta_witness :
    (handleSseEvent (fun _ => false) false 3
        { type := "token", data := some { contentDelta := some "ab" } } {}).state =
      { ({} : ChatState) with
          isStreaming := true,
          messages := [{ freshAssistant 3 with content := "ab" }],
          streamingAssistantMessageId := some (freshAssistant 3).id } ∧
    (handleSseEvent (fun _ => false) false 4
        { type := "token", data := some { contentDelta := some "cd" } }
        scenarioSendState).state =
      { scenarioSendState with
          messages := setContentOfFirst (freshAssistant 0).id (· ++ "cd")
            scenarioSendState.messages } :=
  ⟨token_event_appends_delta.1 (fun _ => false) false {} 3 "ab" rfl (by decide),
   token_event_appends_delta.2.1 (fun _ => false) false scenarioSendState 4 "cd"
     (freshAssistant 0).id rfl⟩

/-! ### Claim C6 -/

/-- Claim C6: when the requested tool calls all have registered handlers
and one handler throws, the thrown error becomes a synthesized result
carrying a JSON error payload for that call only, the sibling handler
still contributes its result, and both results are submitted together:
for two registered calls where the second throws, exactly two results
are produced (one success, one synthesized error) and the submission
carries both. -/
theorem tool_handler_throw_synthesized (reg : Registry) (c₁ c₂ : ToolCall)
    (n₁ n₂ : String) (h₁ h₂ : ToolCall → HandlerOutcome) (r₁ : ToolResult)
    (em : String)
    (hn₁ : c₁.fname = some n₁) (hne₁ : n₁ ≠ "")
    (hn₂ : c₂.fname = some n₂) (hne₂ : n₂ ≠ "")
    (hreg₁ : reg n₁ = some h₁) (hreg₂ : reg n₂ = some h₂)
    (hok : h₁ (normalizeCall c₁ n₁) = .ok (some r₁))
    (hthrew : h₂ (normalizeCall c₂ n₂) = .threw em) :
    handleRegisteredTools reg [c₁, c₂] =
      ([r₁, { toolCallId := c₂.id, name := n₂, content := jsonErrorContent em }],
       some [r₁, { toolCallId := c₂.id, name := n₂, content := jsonErrorContent em }]) := by
  have hcollect : collectToolResults reg [c₁, c₂] =
      [r₁, { toolCallId := c₂.id, name := n₂, content := jsonErrorContent em }] := by
    simp only [collectToolResults, hn₁, hn₂, hreg₁, hreg₂, hok, hthrew,
      if_neg hne₁, if_neg hne₂]
  simp only [handleRegisteredTools, hcollect]
  rfl

/-- A handler that succeeds with a fixed result. -/
def c6Handler1 : ToolCall → HandlerOutcome := fun _ => .ok (some ⟨"tc-1", "alpha", "ok"⟩)

/-- A handler that throws. -/
def c6Handler2 : ToolCall → HandlerOutcome := fun _ => .threw "boom"

/-- A registry holding exactly the two handlers. -/
def c6Registry : Registry := fun n =>
  if n = "alpha" then some c6Handler1
  else if n = "beta" then some c6Handler2
  else none

/-- Witness for C6: two registered calls, the second handler throws. -/
theorem tool_handler_throw_synthesized_witness :
    handleRegisteredTools c6Registry
        [ { id := "tc-1", fname := some "alpha" }, { id := "tc-2", fname := some "beta" } ] =
      ([⟨"tc-1", "alpha", "ok"⟩, ⟨"tc-2", "beta", jsonErrorContent "boom"⟩],
       some [⟨"tc-1", "alpha", "ok"⟩, ⟨"tc-2", "beta", jsonErrorContent "boom"⟩]) :=
  tool_handler_throw_synthesized c6Registry _ _ "alpha" "beta" c6Handler1 c6Handler2
    ⟨"tc-1", "alpha", "ok"⟩ "boom" rfl (by decide) rfl (by decide) rfl rfl rfl rfl

/-! ### Claim C7 -/

/-- The retained streaming slot left over after an `external_tool_call`
suspension. -/
def c7Slot : Message :=
  { id := "m1", role := .Assistant, content := "partial", created := 0, isEdited := false }

/-- A suspended state: streaming is off but the streaming slot `m1` is
still recorded — exactly the state in which the automatic tool-result
submission runs. -/
def c7State : ChatState :=
  { pubId := some "pub", conversationId := some "c1", projectId := some "p"
    notebookId := some "n", guideId := some "g"
    messages := [c7Slot]
    isStreaming := false
    streamingAssistantMessageId := some "m1" }

/-- A network environment whose final history reload fails, leaving the
in-memory list visible in the result. -/
def c7Env : NetEnv :=
  { fetchHistory := .ok [c7Slot]
    streamEvents := .ok []
    finalFetchHistory := .error (.generic "history fetch failed") }

/-- Counterexample to C7 as stated: a streaming message slot (`m1`)
exists, yet `submitExternalToolResults` does not re-enter the stream
against it — it appends a fresh placeholder assistant message
(`temp-assistant-5`) and makes that the streaming slot.  The results are
still submitted together. -/
theorem resume_reuses_slot_counterexample :
    c7State.streamingAssistantMessageId = some "m1" ∧
    ((submitExternalToolResults (fun _ => false) false c7Env 5
        [⟨"call-1", "frobnicate", "42"⟩] c7State).state.messages.map fun m => m.id) =
      ["m1", "temp-assistant-5"] ∧
    (submitExternalToolResults (fun _ => false) false c7Env 5
        [⟨"call-1", "frobnicate", "42"⟩] c7State).submitted =
      some [⟨"call-1", "frobnicate", "42"⟩] := by
  decide

/-- Claim C7 (amended): when at least one tool result was produced, all
results are submitted together to the resume endpoint.  The automatic
submission path (`submitExternalToolResults`) always creates a fresh
placeholder assistant message as the streaming slot — even when a
streaming slot already exists (see the counterexample); only the manual
`beginResumeStream` re-enters against the same streaming message slot
when one exists, creating a fresh placeholder otherwise. -/
theorem tool_results_submitted_fresh_placeholder :
    (∀ (reg : Registry) (calls : List ToolCall),
      (handleRegisteredTools reg calls).1 ≠ [] →
      (handleRegisteredTools reg calls).2 = some (handleRegisteredTools reg calls).1) ∧
    (∀ (hasTool : String → Bool) (hasCb : Bool) (env : NetEnv) (now : Nat)
        (results : List ToolResult) (s : ChatState) (cid : String)
        (h : List Message) (em : String),
      results ≠ [] → s.isStreaming = false →
      s.conversationId = some cid → env.fetchHistory = .ok h →
      s.sanitizedMessageContent = none →
      env.streamEvents = .error (.generic em) →
      (submitExternalToolResults hasTool hasCb env now results s).submitted
          = some results ∧
      (submitExternalToolResults hasTool hasCb env now results s).state.messages
          = h ++ [freshAssistant now] ∧
      Emit.streamStart ∈ (submitExternalToolResults hasTool hasCb env now results s).emits) ∧
    (∀ (now : Nat) (s : ChatState) (i : String),
      s.isStreaming = false → s.streamingAssistantMessageId = some i →
      beginResumeStream now s = { s with isStreaming := true }) ∧
    (∀ (now : Nat) (s : ChatState),
      s.streamingAssistantMessageId = none →
      beginResumeStream now s =
        { s with isStreaming := true
                 messages := s.messages ++ [freshAssistant now]
                 streamingAssistantMessageId := some (freshAssistant now).id }) := by
  refine ⟨?_, ?_, ?_, ?_⟩
  · intro reg calls hne
    simp only [handleRegisteredTools] at hne ⊢
    rw [if_neg hne]
  · intro hasTool hasCb env now results s cid h em hne hS hcid hfetch hsan hstream
    simp only [submitExternalToolResults, if_neg hne, hS, Bool.false_eq_true, if_false,
      ensureConversationR, loadConversationR, hcid, hfetch, hsan, Option.getD_none,
      ne_eq, not_true_eq_false, if_true, hstream, catchSurface, finallyCleanup]
    simp
  · intro now s i hS hsome
    simp only [beginResumeStream, hS, hsome, Option.isSome_some, Bool.false_eq_true,
      false_and, if_false, Option.isNone_some]
  · intro now s hnone
    simp only [beginResumeStream, hnone, Option.isSome_none, Bool.false_eq_true,
      and_false, if_false, Option.isNone_none, if_true]

/-- A fresh-session state for the submission witness. -/
def c7wState : ChatState :=
  { pubId := some "pub", conversationId := some "c9", projectId := some "p"
    notebookId := some "n", guideId := some "g" }

/-- An environment whose resumed stream rejects. -/
def c7wEnv : NetEnv :=
  { fetchHistory := .ok [], streamEvents := .error (.generic "net down") }

/-- Witness for the amended C7: a concrete submission and a concrete
manual resume against an existing slot. -/
theorem tool_results_submitted_fresh_placeholder_witness :
    ((submitExternalToolResults (fun _ => false) false c7wEnv 9
        [⟨"c1", "t", "r"⟩] c7wState).submitted = some [⟨"c1", "t", "r"⟩] ∧
      (submitExternalToolResults (fun _ => false) false c7wEnv 9
        [⟨"c1", "t", "r"⟩] c7wState).state.messages = [] ++ [freshAssistant 9] ∧
      Emit.streamStart ∈ (submitExternalToolResults (fun _ => false) false c7wEnv 9
        [⟨"c1", "t", "r"⟩] c7wState).emits) ∧
    beginResumeStream 2 c7State = { c7State with isStreaming := true } :=
  ⟨tool_results_submitted_fresh_placeholder.2.1 (fun _ => false) false c7wEnv 9
      [⟨"c1", "t", "r"⟩] c7wState "c9" [] "net down" (by decide) rfl rfl rfl rfl rfl,
   tool_results_submitted_fresh_placeholder.2.2.1 2 c7State "m1" rfl rfl⟩

/-! ### Claims C10 and C3: the send guards and rollback -/

theorem tempUser_startsWith (j : String) :
    strStartsWith ("temp-user-" ++ j) "temp-" = true := by
  simp only [strStartsWith, String.data_append]
  rfl

theorem tempAssistant_startsWith (j : String) :
    strStartsWith ("temp-assistant-" ++ j) "temp-" = true := by
  simp only [strStartsWith, String.data_append]
  rfl

theorem tempFilterRollback_optimistic (h : List Message) (u a : Message)
    (hclean : (h.all fun m => !(strStartsWith m.id "temp-")) = true)
    (hu : strStartsWith u.id "temp-" = true)
    (ha : strStartsWith a.id "temp-" = true) :
    tempFilterRollback ((h ++ [u]) ++ [a]) = h := by
  have hh : h.filter (fun m => !(strStartsWith m.id "temp-")) = h :=
    List.filter_eq_self.mpr fun m hm => by
      simpa using List.all_eq_true.mp hclean m hm
  simp [tempFilterRollback, List.filter_append, hh, hu, ha]

theorem performSendPre_noCommand (s : ChatState) (hcmd : s.commandMode = false) :
    (performSendPre s).1 =
      (if s.collapsible ∧ s.isCollapsed then { s with isCollapsed := false } else s) := by
  simp only [performSendPre]
  split
  · exact if_neg (by simp [hcmd])
  · exact if_neg (by simp [hcmd])

theorem performSendPre_emits (s : ChatState) :
    (performSendPre s).2 = [] ∨ (performSendPre s).2 = [Emit.expanded] := by
  simp only [performSendPre]
  split
  · exact Or.inr rfl
  · exact Or.inl rfl

theorem performSendCore_maxTurns_blocks (hasTool : String → Bool) (hasCb : Bool)
    (env : NetEnv) (now : Nat) (content : String)
    (atts : List PublishedAttachment) (s : ChatState) (emits0 : List Emit)
    (hids : ensureResolvedIdsR s = none)
    (hlen : maxLenExceeded { s with pendingAttachments := ([] : List PendingAttachment) }
        content = false)
    (hturn : maxTurnsReached { s with pendingAttachments := ([] : List PendingAttachment) }
        = true) :
    performSendCore hasTool hasCb env now content atts s emits0 =
      ⟨showErrorState
          (maxTurnsMessage { s with pendingAttachments := ([] : List PendingAttachment) })
          { s with pendingAttachments := ([] : List PendingAttachment) },
        emits0, []⟩ := by
  simp only [performSendCore, hids, hlen, Bool.false_eq_true, if_false, hturn, if_true]

/-- Claim C10: when `publishedGuideConfig.maxTurns` is set (non-zero) and
the number of `User` messages already reached it, a send (outside
command mode) surfaces an inline error naming the maximum and returns
before `isStreaming` is set, before a `stream-start` notification is
emitted, and before any optimistic message is appended. -/
theorem max_turns_guard_blocks_send (hasTool : String → Bool) (hasCb : Bool)
    (env : NetEnv) (now : Nat) (content : String)
    (atts : List PublishedAttachment) (s : ChatState) (k : Nat)
    (hpub : s.pubId.isSome = true)
    (hcmd : s.commandMode = false)
    (hids : ensureResolvedIdsR s = none)
    (hlen : maxLenExceeded s content = false)
    (hcfg : s.publishedGuideConfig.bind (fun c => c.maxTurns) = some k)
    (hk : k ≠ 0)
    (hcount : k ≤ countUserMessages s.messages) :
    (performSend hasTool hasCb env now content atts s).state.inlineError =
      some ("This conversation has reached the maximum of " ++ toString k ++ " turns") ∧
    (performSend hasTool hasCb env now content atts s).state.isStreaming = s.isStreaming ∧
    (performSend hasTool hasCb env now content atts s).state.messages = s.messages ∧
    Emit.streamStart ∉ (performSend hasTool hasCb env now content atts s).emits ∧
    (performSend hasTool hasCb env now content atts s).spawned = [] := by
  obtain ⟨pv, hpv⟩ := Option.isSome_iff_exists.mp hpub
  have hturn : maxTurnsReached
      { s with pendingAttachments := ([] : List PendingAttachment) } = true := by
    simp [maxTurnsReached, hcfg, hk, hcount]
  have hemits := performSendPre_emits s
  simp only [performSend, hpv, Option.isNone_some, Bool.false_eq_true, if_false]
  rw [performSendPre_noCommand s hcmd]
  by_cases hcol : s.collapsible ∧ s.isCollapsed
  · rw [if_pos hcol]
    rw [performSendCore_maxTurns_blocks hasTool hasCb env now content atts
      { s with isCollapsed := false } ((performSendPre s).2) hids hlen hturn]
    refine ⟨?_, rfl, rfl, ?_, rfl⟩
    · simp [showErrorState, maxTurnsMessage, hcfg]
    · rcases hemits with he | he <;> simp [he]
  · rw [if_neg hcol]
    rw [performSendCore_maxTurns_blocks hasTool hasCb env now content atts
      s ((performSendPre s).2) hids hlen hturn]
    refine ⟨?_, rfl, rfl, ?_, rfl⟩
    · simp [showErrorState, maxTurnsMessage, hcfg]
    · rcases hemits with he | he <;> simp [he]

/-- A state at its one-turn limit. -/
def c10State : ChatState :=
  { pubId := some "pub", projectId := some "p", notebookId := some "n"
    guideId := some "g"
    publishedGuideConfig := some { maxTurns := some 1 }
    messages :=
      [ { id := "u1", role := .User, content := "first", created := 0, isEdited := false } ] }

/-- Witness for C10: a send against the one-turn-limit state is blocked. -/
theorem max_turns_guard_blocks_send_witness :
    (performSend (fun _ => false) false {} 3 "next" [] c10State).state.inlineError =
      some ("This conversation has reached the maximum of " ++ toString 1 ++ " turns") ∧
    (performSend (fun _ => false) false {} 3 "next" [] c10State).state.isStreaming =
      c10State.isStreaming ∧
    (performSend (fun _ => false) false {} 3 "next" [] c10State).state.messages =
      c10State.messages ∧
    Emit.streamStart ∉ (performSend (fun _ => false) false {} 3 "next" [] c10State).emits ∧
    (performSend (fun _ => false) false {} 3 "next" [] c10State).spawned = [] :=
  max_turns_guard_blocks_send (fun _ => false) false {} 3 "next" [] c10State 1
    rfl rfl rfl rfl rfl (by decide) (by decide)

theorem sendTryBody_stream_rejected (hasTool : String → Bool) (hasCb : Bool)
    (env : NetEnv) (now : Nat) (content : String)
    (allAtts : List PublishedAttachment) (sS : ChatState) (cid : String)
    (h : List Message) (e : JsErr)
    (hcid : sS.conversationId = some cid)
    (hsan : sS.sanitizedMessageContent = none)
    (hfetch : env.fetchHistory = .ok h)
    (hstream : env.streamEvents = .error e) :
    (sendTryBody hasTool hasCb env now content allAtts sS).err = some e ∧
    (sendTryBody hasTool hasCb env now content allAtts sS).emits = [] ∧
    (sendTryBody hasTool hasCb env now content allAtts sS).spawned = [] ∧
    (sendTryBody hasTool hasCb env now content allAtts sS).state.messages =
      (h ++ [optimisticUserMessage now content allAtts]) ++ [freshAssistant now] ∧
    (sendTryBody hasTool hasCb env now content allAtts sS).state.pendingAttachments =
      sS.pendingAttachments ∧
    (sendTryBody hasTool hasCb env now content allAtts sS).state.inlineError =
      sS.inlineError := by
  simp only [sendTryBody, ensureConversationR, loadConversationR, hcid, hsan,
    hfetch, Option.getD_none, ne_eq, not_true_eq_false, if_false, hstream]
  split <;> simp

theorem performSendCore_rollback (hasTool : String → Bool) (hasCb : Bool)
    (env : NetEnv) (now : Nat) (content : String)
    (atts : List PublishedAttachment) (s : ChatState) (emits0 : List Emit)
    (cid : String) (h : List Message) (em : String)
    (hids : ensureResolvedIdsR s = none)
    (hlen : maxLenExceeded { s with pendingAttachments := ([] : List PendingAttachment) }
        content = false)
    (hturn : maxTurnsReached { s with pendingAttachments := ([] : List PendingAttachment) }
        = false)
    (hcid : s.conversationId = some cid)
    (hsan : s.sanitizedMessageContent = none)
    (hfetch : env.fetchHistory = .ok h)
    (hclean : (h.all fun m => !(strStartsWith m.id "temp-")) = true)
    (hstream : env.streamEvents = .error (.generic em))
    (hem : em ≠ "") :
    (performSendCore hasTool hasCb env now content atts s emits0).state.messages = h ∧
    (performSendCore hasTool hasCb env now content atts s emits0).state.pendingAttachments
      = s.pendingAttachments ∧
    (performSendCore hasTool hasCb env now content atts s emits0).state.inlineError
      = some em ∧
    (performSendCore hasTool hasCb env now content atts s emits0).emits
      = emits0 ++ [Emit.streamStart] ++ [Emit.error em] ∧
    (performSendCore hasTool hasCb env now content atts s emits0).state.isStreaming
      = false ∧
    (performSendCore hasTool hasCb env now content atts s emits0).spawned = [] := by
  obtain ⟨h1, h2, h3, h4, h5, h6⟩ := sendTryBody_stream_rejected hasTool hasCb env now
    content
    ((normalizeAttachments atts).getD [] ++
      s.pendingAttachments.map fun p => { p.published with fileName := some p.fileName })
    { s with pendingAttachments := ([] : List PendingAttachment), isStreaming := true }
    cid h (.generic em) hcid hsan hfetch hstream
  have hfilter : tempFilterRollback
      ((h ++ [optimisticUserMessage now content
          ((normalizeAttachments atts).getD [] ++
            s.pendingAttachments.map fun p =>
              { p.published with fileName := some p.fileName })]) ++
        [freshAssistant now]) = h :=
    tempFilterRollback_optimistic h _ _ hclean (tempUser_startsWith _)
      (tempAssistant_startsWith _)
  simp only [performSendCore, hids, hlen, Bool.false_eq_true, if_false, hturn, h1]
  simp only [h4, hfilter, h2, h3]
  by_cases hp : s.pendingAttachments = []
  · rw [if_pos hp]
    simp only [catchSurface, if_neg hem, finallyCleanup]
    refine ⟨?_, ?_, ?_, ?_, ?_, ?_⟩ <;>
      first
        | trivial
        | (rw [hp] at h5 ⊢; exact h5)
        | simp
  · rw [if_neg hp]
    simp only [catchSurface, if_neg hem, finallyCleanup]
    refine ⟨?_, ?_, ?_, ?_, ?_, ?_⟩ <;>
      first
        | trivial
        | simp

/-- Claim C3: if the stream request of a send rejects immediately, the
failed send removes both optimistic temp-id messages — the message list
equals the consistently fetched history, so its length equals the length
before the call — the pending attachments taken for the send are
restored to the queue, the original error is surfaced inline and as a
`wf-error` notification, and streaming is off. -/
theorem send_rollback_on_stream_failure (hasTool : String → Bool) (hasCb : Bool)
    (env : NetEnv) (now : Nat) (content : String)
    (atts : List PublishedAttachment) (s : ChatState) (cid : String)
    (h : List Message) (em : String)
    (hpub : s.pubId.isSome = true)
    (hcmd : s.commandMode = false)
    (hids : ensureResolvedIdsR s = none)
    (hlen : maxLenExceeded s content = false)
    (hturn : maxTurnsReached s = false)
    (hcid : s.conversationId = some cid)
    (hsan : s.sanitizedMessageContent = none)
    (hfetch : env.fetchHistory = .ok h)
    (hclean : (h.all fun m => !(strStartsWith m.id "temp-")) = true)
    (hlen2 : h.length = s.messages.length)
    (hstream : env.streamEvents = .error (.generic em))
    (hem : em ≠ "") :
    (performSend hasTool hasCb env now content atts s).state.messages = h ∧
    (performSend hasTool hasCb env now content atts s).state.messages.length =
      s.messages.length ∧
    (performSend hasTool hasCb env now content atts s).state.pendingAttachments =
      s.pendingAttachments ∧
    (performSend hasTool hasCb env now content atts s).state.inlineError = some em ∧
    Emit.error em ∈ (performSend hasTool hasCb env now content atts s).emits ∧
    (performSend hasTool hasCb env now content atts s).state.isStreaming = false := by
  obtain ⟨pv, hpv⟩ := Option.isSome_iff_exists.mp hpub
  have hemits := performSendPre_emits s
  simp only [performSend, hpv, Option.isNone_some, Bool.false_eq_true, if_false]
  rw [performSendPre_noCommand s hcmd]
  by_cases hcol : s.collapsible ∧ s.isCollapsed
  · rw [if_pos hcol]
    obtain ⟨g1, g2, g3, g4, g5, g6⟩ := performSendCore_rollback hasTool hasCb env now
      content atts { s with isCollapsed := false } ((performSendPre s).2) cid h em
      hids hlen hturn hcid hsan hfetch hclean hstream hem
    refine ⟨g1, ?_, g2, g3, ?_, g5⟩
    · rw [g1]
      exact hlen2
    · rw [g4]
      simp
  · rw [if_neg hcol]
    obtain ⟨g1, g2, g3, g4, g5, g6⟩ := performSendCore_rollback hasTool hasCb env now
      content atts s ((performSendPre s).2) cid h em
      hids hlen hturn hcid hsan hfetch hclean hstream hem
    refine ⟨g1, ?_, g2, g3, ?_, g5⟩
    · rw [g1]
      exact hlen2
    · rw [g4]
      simp

/-- The state before the failing send of the witness. -/
def c3State : ChatState :=
  { pubId := some "pub", conversationId := some "c1", projectId := some "p"
    notebookId := some "n", guideId := some "g"
    messages :=
      [ { id := "u1", role := .User, content := "old", created := 0, isEdited := false } ]
    pendingAttachments :=
      [ { fileName := "pic.png", published := { notebookFileId := "f1", uploadType := "ImageFile" } } ] }

/-- An environment whose history fetch is consistent and whose stream
request rejects immediately. -/
def c3Env : NetEnv :=
  { fetchHistory := .ok
      [ { id := "u1", role := .User, content := "old", created := 0, isEdited := false } ]
    streamEvents := .error (.generic "network unreachable") }

/-- Witness for C3: the failed send leaves one message, restores the
taken pending attachment and surfaces the stream error. -/
theorem send_rollback_on_stream_failure_witness :
    (performSend (fun _ => false) false c3Env 7 "hi" [] c3State).state.messages =
      [ { id := "u1", role := .User, content := "old", created := 0, isEdited := false } ] ∧
    (performSend (fun _ => false) false c3Env 7 "hi" [] c3State).state.messages.length =
      c3State.messages.length ∧
    (performSend (fun _ => false) false c3Env 7 "hi" [] c3State).state.pendingAttachments =
      c3State.pendingAttachments ∧
    (performSend (fun _ => false) false c3Env 7 "hi" [] c3State).state.inlineError =
      some "network unreachable" ∧
    Emit.error "network unreachable" ∈
      (performSend (fun _ => false) false c3Env 7 "hi" [] c3State).emits ∧
    (performSend (fun _ => false) false c3Env 7 "hi" [] c3State).state.isStreaming =
      false :=
  send_rollback_on_stream_failure (fun _ => false) false c3Env 7 "hi" [] c3State "c1"
    [ { id := "u1", role := .User, content := "old", created := 0, isEdited := false } ]
    "network unreachable" rfl rfl rfl rfl rfl rfl rfl rfl (by decide) rfl rfl
    (by decide)

end GuideAnts
